import Mathlib

/-!
# Verification of the postcard-rpc host client core

A shallow embedding of `src/host_client/mod.rs`: the request/response
correlation engine (`HostClient::send_resp`, `send_resp_dyn`), the
fire-and-forget `publish`, `subscribe`, the frame serializer
`RpcFrame::to_bytes`, the subscription receive loop `Subscription::recv`,
and the inbound dispatch helpers `HostContext::process` /
`process_did_wake`.

Modelling conventions:
* payloads are opaque octet strings, embedded as `List Nat`;
* the external payload codecs (`postcard::from_bytes`,
  `postcard_dyn::from_slice_dyn`) are parameters of type
  `List Nat → Option α` (`none` = decode failure);
* the 32-bit atomic sequence counter is a `Nat` kept below `2 ^ 32`
  by explicit reduction;
* the asynchronous race between the success waiter and the error waiter
  in the `select!` block is resolved by an explicit `RaceResult`
  parameter naming which waiter fired first and with what outcome;
* each client operation returns, besides its result and updated state,
  a trace of observable events (sequence allocation, submission of a
  frame to the outbound queue, registration of a waiter), in the order
  the source performs them.
-/

/-- A routing key: an opaque tag carried as its octets
(`Key` in the crate root; an 8-byte value on the wire). -/
structure Key where
  bytes : List Nat
deriving DecidableEq

/-- `WireHeader`: the reply coordinate (routing key, sequence number). -/
structure WireHeader where
  key : Key
  seq_no : Nat
deriving DecidableEq

/-- `RpcFrame`: a wire header plus the serialized message payload. -/
structure RpcFrame where
  header : WireHeader
  body : List Nat
deriving DecidableEq

/-- The four little-endian octets of a 32-bit value. -/
def u32_le_bytes (n : Nat) : List Nat :=
  [n % 256, n / 2 ^ 8 % 256, n / 2 ^ 16 % 256, n / 2 ^ 24 % 256]

/-- Modelled from the spec: the postcard serialization of `WireHeader`
used by `RpcFrame::to_bytes` (the `Serialize` impl for `WireHeader`
lives in the crate root, outside the provided source). Per §4.1 and the
wire-layout table in §6, it is the routing-key octets followed by the
sequence number as 4 little-endian octets. -/
def encode_header (h : WireHeader) : List Nat :=
  h.key.bytes ++ u32_le_bytes h.seq_no

/-- `RpcFrame::to_bytes`: serialized header followed by the raw body. -/
def RpcFrame.to_bytes (f : RpcFrame) : List Nat :=
  encode_header f.header ++ f.body

/-- `WakeOutcome` of `maitake_sync::WaitMap::wake` (payload carried back
on `NoMatch` and `Closed`). -/
inductive WakeOutcome where
  | Woke : WakeOutcome
  | NoMatch : List Nat → WakeOutcome
  | Closed : List Nat → WakeOutcome
deriving DecidableEq

/-- State of the `WaitMap` inside `HostContext`: the set of pending
reply coordinates, and whether the map has been closed. -/
structure WaitMapState where
  pending : List WireHeader
  closed : Bool
deriving DecidableEq

/-- Modelled from the spec (§4.2 WaitRegistry contract): `wake` on a
closed registry yields `Closed(payload)`; otherwise it wakes a pending
slot with a bit-identical header (`Woke`) or reports
`NoMatch(payload)`. (`WaitMap` is the external `maitake-sync`
collaborator.) -/
def WaitMapState.wake (m : WaitMapState) (h : WireHeader) (body : List Nat) :
    WakeOutcome :=
  if m.closed then .Closed body
  else if h ∈ m.pending then .Woke
  else .NoMatch body

/-- `ProcessError` for `HostContext::process`. -/
inductive ProcessError where
  | Closed : ProcessError
deriving DecidableEq

/-- `HostContext::process_did_wake`: wake the map with the frame's
header and body; report whether anyone was woken. -/
def process_did_wake (m : WaitMapState) (f : RpcFrame) :
    Except ProcessError Bool :=
  match m.wake f.header f.body with
  | .Woke => .ok true
  | .NoMatch _ => .ok false
  | .Closed _ => .error .Closed

/-- `HostContext::process`: `Ok(())` unless the map is closed. -/
def process (m : WaitMapState) (f : RpcFrame) : Except ProcessError Unit :=
  match m.wake f.header f.body with
  | .Closed _ => .error .Closed
  | _ => .ok ()

/-- `HostErr<WireErr>`: errors surfaced by the response-requiring
paths. `Postcard` abstracts `Postcard(postcard::Error)` (the inner
error value is never inspected by the client). -/
inductive HostErr (W : Type) where
  | Wire : W → HostErr W
  | BadResponse : HostErr W
  | Postcard : HostErr W
  | Closed : HostErr W
deriving DecidableEq

/-- `IoClosed`: the I/O worker has closed (fire-and-forget paths). -/
inductive IoClosed where
  | mk : IoClosed
deriving DecidableEq

/-- Observable events of one client operation, in source order:
sequence-number allocation (`fetch_add`), submission of a frame to the
outbound queue (`self.out.send`), registration of a waiter in the
`WaitMap` (`self.ctx.map.wait`). -/
inductive Event where
  | alloc : Nat → Event
  | send : RpcFrame → Event
  | register : WireHeader → Event
deriving DecidableEq

/-- Is this event a waiter registration? -/
def Event.isRegister : Event → Bool
  | .register _ => true
  | _ => false

/-- Is this event an outbound-queue submission? -/
def Event.isSend : Event → Bool
  | .send _ => true
  | _ => false

/-- Combined state of a `HostClient` and its shared `HostContext`:
the `WaitMap` pending set, the `seq` counter (an `AtomicU32`, kept
`< 2 ^ 32`), the client's `err_key`, whether the outbound frame queue
(`out`) and the subscription queue (`subber`) are closed, and the
frames/registrations accumulated on those queues. Clones of a client
share all of this. -/
structure ClientState where
  registered : List WireHeader
  seq : Nat
  errKey : Key
  outClosed : Bool
  subClosed : Bool
  outQueue : List RpcFrame
  subQueue : List Key
deriving DecidableEq

/-- `fetch_add(1, Relaxed)` on the `AtomicU32` counter: successor
modulo `2 ^ 32`. -/
def nextSeq (s : Nat) : Nat := (s + 1) % 2 ^ 32

/-- Resolution of the `select!` race between the two waiters: which
waiter's future completed first, and with what
(`Except.error` = the wait resolved with `WaitError`, i.e. closed;
`Except.ok p` = the wait delivered payload `p`). -/
inductive RaceResult where
  | okWon : Except Unit (List Nat) → RaceResult
  | errWon : Except Unit (List Nat) → RaceResult

/-- The `select!` body of `send_resp`: the winning arm propagates a
closed wait as `Closed` (`From<WaitError>`), decodes the payload with
its own codec, propagates a decode failure as `Postcard`
(`From<postcard::Error>`), and otherwise yields `Ok(response)` or
`Err(Wire(err))`. -/
def send_resp_select {W R : Type} (decodeResp : List Nat → Option R)
    (decodeErr : List Nat → Option W) :
    RaceResult → Except (HostErr W) R
  | .okWon (.error _) => .error .Closed
  | .okWon (.ok p) =>
    match decodeResp p with
    | some r => .ok r
    | none => .error .Postcard
  | .errWon (.error _) => .error .Closed
  | .errWon (.ok p) =>
    match decodeErr p with
    | some e => .error (.Wire e)
    | none => .error .Postcard

/-- Result, post-state and event trace of one `send_resp` call. -/
structure SendRespOut (W R : Type) where
  result : Except (HostErr W) R
  state : ClientState
  trace : List Event

/-- `HostClient::send_resp`, in source order: allocate `seq_no` from
the shared counter, serialize the request (`body`, via the external
codec), build the frame with header `(E::REQ_KEY, seq_no)`, submit it
to the outbound queue (returning `Closed` if that queue is closed),
create the success waiter `(E::RESP_KEY, seq_no)` and the error waiter
`(err_key, seq_no)`, then run the `select!` race. Both waiter slots are
resolved (one delivered, the loser cancelled on drop) by the time the
call returns, so the pending set is restored. -/
def send_resp {W R : Type} (st : ClientState) (reqKey respKey : Key)
    (body : List Nat) (decodeResp : List Nat → Option R)
    (decodeErr : List Nat → Option W) (race : RaceResult) :
    SendRespOut W R :=
  let seq_no := st.seq
  let st1 : ClientState := { st with seq := nextSeq st.seq }
  let frame : RpcFrame := ⟨⟨reqKey, seq_no⟩, body⟩
  if st1.outClosed then
    ⟨.error .Closed, st1, [.alloc seq_no]⟩
  else
    let st2 : ClientState := { st1 with outQueue := st1.outQueue ++ [frame] }
    ⟨send_resp_select decodeResp decodeErr race, st2,
      [.alloc seq_no, .send frame,
        .register ⟨respKey, seq_no⟩, .register ⟨st.errKey, seq_no⟩]⟩

/-- Outcome of `send_resp_dyn`: a decoded value, a `HostErr`, or a
panic (`.expect("deser error")` on the dynamic decode path). -/
inductive DynResult (W V : Type) where
  | ok : V → DynResult W V
  | err : HostErr W → DynResult W V
  | panicked : DynResult W V
deriving DecidableEq

/-- The `select!` body of `send_resp_dyn`: the success arm decodes with
the dynamic schema codec and PANICS on failure; the error arm decodes
`WireErr` with `?`, so its failure is `Postcard`. -/
def send_resp_dyn_select {W V : Type} (decodeDyn : List Nat → Option V)
    (decodeErr : List Nat → Option W) :
    RaceResult → DynResult W V
  | .okWon (.error _) => .err .Closed
  | .okWon (.ok p) =>
    match decodeDyn p with
    | some v => .ok v
    | none => .panicked
  | .errWon (.error _) => .err .Closed
  | .errWon (.ok p) =>
    match decodeErr p with
    | some e => .err (.Wire e)
    | none => .err .Postcard

/-- Result, post-state and event trace of one `send_resp_dyn` call. -/
structure SendRespDynOut (W V : Type) where
  result : DynResult W V
  state : ClientState
  trace : List Event

/-- `HostClient::send_resp_dyn`: identical dispatch to `send_resp`
(allocate, serialize dynamically, submit, create the two waiters, run
the race), with the dynamic-schema decode on the success arm. -/
def send_resp_dyn {W V : Type} (st : ClientState) (reqKey respKey : Key)
    (body : List Nat) (decodeDyn : List Nat → Option V)
    (decodeErr : List Nat → Option W) (race : RaceResult) :
    SendRespDynOut W V :=
  let seq_no := st.seq
  let st1 : ClientState := { st with seq := nextSeq st.seq }
  let frame : RpcFrame := ⟨⟨reqKey, seq_no⟩, body⟩
  if st1.outClosed then
    ⟨.err .Closed, st1, [.alloc seq_no]⟩
  else
    let st2 : ClientState := { st1 with outQueue := st1.outQueue ++ [frame] }
    ⟨send_resp_dyn_select decodeDyn decodeErr race, st2,
      [.alloc seq_no, .send frame,
        .register ⟨respKey, seq_no⟩, .register ⟨st.errKey, seq_no⟩]⟩

/-- `HostClient::publish`: serialize the topic message, submit a frame
with header `(T::TOPIC_KEY, seq_no)` — the caller-supplied sequence
number — to the outbound queue; `IoClosed` if that queue is closed.
No waiter is registered and the counter is untouched. -/
def publish (st : ClientState) (topicKey : Key) (seq_no : Nat)
    (body : List Nat) : Except IoClosed Unit × ClientState × List Event :=
  let frame : RpcFrame := ⟨⟨topicKey, seq_no⟩, body⟩
  if st.outClosed then (.error .mk, st, [])
  else (.ok (), { st with outQueue := st.outQueue ++ [frame] }, [.send frame])

/-- `HostClient::subscribe`: send `(T::TOPIC_KEY, sender)` on the
subscription-registration queue; `IoClosed` if that queue is closed.
(The per-subscription channel itself is modelled by
`Subscription.recv` below.) -/
def subscribe (st : ClientState) (topicKey : Key) :
    Except IoClosed Unit × ClientState :=
  if st.subClosed then (.error .mk, st)
  else (.ok (), { st with subQueue := st.subQueue ++ [topicKey] })

/-- `Subscription::recv`: the subscription channel is modelled as the
finite list of queued frames, earliest first, after which the channel
is closed. The loop takes frames in order, returns the first body that
decodes (with the remaining queue), silently skips bodies that fail to
decode, and returns `none` when the queue is exhausted (channel
closed). -/
def Subscription.recv {M : Type} (decode : List Nat → Option M) :
    List RpcFrame → Option (M × List RpcFrame)
  | [] => none
  | f :: rest =>
    match decode f.body with
    | some m => some (m, rest)
    | none => Subscription.recv decode rest

/-- The two-waiter registrations both precede the first outbound-queue
submission in the trace. -/
def waitsBeforeSend (tr : List Event) : Bool :=
  ((tr.takeWhile fun e => ! e.isSend).filter Event.isRegister).length = 2

/-- C3: `RpcFrame::to_bytes` emits the 8 routing-key octets, then the
sequence number as exactly 4 little-endian octets, then the payload
unchanged; the total length is 12 plus the payload length. -/
theorem to_bytes_layout (f : RpcFrame) (h : f.header.key.bytes.length = 8) :
    f.to_bytes = f.header.key.bytes ++ u32_le_bytes f.header.seq_no ++ f.body
      ∧ (u32_le_bytes f.header.seq_no).length = 4
      ∧ f.to_bytes.length = 12 + f.body.length := by
  refine ⟨?_, rfl, ?_⟩
  · simp [RpcFrame.to_bytes, encode_header]
  · simp [RpcFrame.to_bytes, encode_header, u32_le_bytes, h]
    omega

/-- Witness for C3 at a concrete frame. -/
theorem to_bytes_layout_witness :
    let f : RpcFrame := ⟨⟨⟨[1, 2, 3, 4, 5, 6, 7, 8]⟩, 258⟩, [9, 9]⟩
    f.to_bytes = [1, 2, 3, 4, 5, 6, 7, 8, 2, 1, 0, 0, 9, 9]
      ∧ f.to_bytes.length = 12 + 2 := by
  have h := to_bytes_layout ⟨⟨⟨[1, 2, 3, 4, 5, 6, 7, 8]⟩, 258⟩, [9, 9]⟩ (by decide)
  exact ⟨by exact h.1.trans (by decide), h.2.2⟩

/-- C10: `process_did_wake` returns `Ok(true)` exactly on `Woke`,
`Ok(false)` exactly on `NoMatch`, `Err(Closed)` exactly on `Closed`;
`process` accepts both `Woke` and `NoMatch` and errors exactly when the
map is closed, so `process` errs iff `process_did_wake` errs. -/
theorem process_did_wake_characterization (m : WaitMapState) (f : RpcFrame) :
    (process_did_wake m f = .ok true ↔ m.wake f.header f.body = .Woke)
    ∧ (process_did_wake m f = .ok false ↔
        m.wake f.header f.body = .NoMatch f.body)
    ∧ (process_did_wake m f = .error .Closed ↔
        m.wake f.header f.body = .Closed f.body)
    ∧ (process m f = .error .Closed ↔
        m.wake f.header f.body = .Closed f.body)
    ∧ (process m f = .ok () ↔ (process_did_wake m f).isOk) := by
  unfold process_did_wake process WaitMapState.wake
  by_cases hc : m.closed <;>
    by_cases hp : f.header ∈ m.pending <;>
      simp [hc, hp, Except.isOk, Except.toBool]

/-- A concrete request key for witnesses. -/
def kA : Key := ⟨[1, 1, 1, 1, 1, 1, 1, 1]⟩

/-- A concrete response key for witnesses. -/
def kB : Key := ⟨[2, 2, 2, 2, 2, 2, 2, 2]⟩

/-- A concrete error key for witnesses. -/
def kErr : Key := ⟨[9, 9, 9, 9, 9, 9, 9, 9]⟩

/-- A concrete fresh client state for witnesses. -/
def sampleState : ClientState := ⟨[], 0, kErr, false, false, [], []⟩

/-- C1: with the outbound queue open, if the success waiter — registered
at coordinate `(E::RESP_KEY, seq)` — fires first with a payload that
decodes to `r`, `send_resp` returns `Ok(r)`; if the error waiter —
registered at `(err_key, seq)` — fires first with a payload that
decodes to WireErr `e`, it returns `Err(Wire(e))`. -/
theorem send_resp_race_correct {W R : Type} (st : ClientState)
    (reqKey respKey : Key) (body : List Nat)
    (decodeResp : List Nat → Option R) (decodeErr : List Nat → Option W)
    (hopen : st.outClosed = false) :
    (∀ p r, decodeResp p = some r →
      (send_resp st reqKey respKey body decodeResp decodeErr
        (.okWon (.ok p))).result = .ok r)
    ∧ (∀ p e, decodeErr p = some e →
      (send_resp st reqKey respKey body decodeResp decodeErr
        (.errWon (.ok p))).result = .error (.Wire e))
    ∧ (∀ race, Event.register ⟨respKey, st.seq⟩ ∈
          (send_resp st reqKey respKey body decodeResp decodeErr race).trace
        ∧ Event.register ⟨st.errKey, st.seq⟩ ∈
          (send_resp st reqKey respKey body decodeResp decodeErr race).trace) := by
  refine ⟨fun p r hd => ?_, fun p e hd => ?_, fun race => ?_⟩
  · simp [send_resp, send_resp_select, hopen, hd]
  · simp [send_resp, send_resp_select, hopen, hd]
  · simp [send_resp, hopen]

/-- Witness for C1: a successful round trip and a wire-error round trip
at concrete inputs. -/
theorem send_resp_race_correct_witness :
    sampleState.outClosed = false
    ∧ (send_resp sampleState kA kB [7]
        (fun p => if p = [7] then some 42 else none)
        (fun _ => (none : Option Nat)) (.okWon (.ok [7]))).result = .ok 42
    ∧ (send_resp sampleState kA kB [7]
        (fun _ => (none : Option Nat))
        (fun p => if p = [3] then some 5 else none)
        (.errWon (.ok [3]))).result = .error (.Wire 5) := by
  refine ⟨rfl, ?_, ?_⟩
  · exact (send_resp_race_correct sampleState kA kB [7] _ _ rfl).1 [7] 42
      (by decide)
  · exact (send_resp_race_correct sampleState kA kB [7] _ _ rfl).2.1 [3] 5
      (by decide)

/-- C2 is false on the code: at this concrete call the trace submits
the outbound frame before either waiter is registered, so the two
registrations do NOT precede the submission. -/
theorem send_resp_counterexample_registration_order :
    waitsBeforeSend (send_resp (W := Nat) (R := Nat) sampleState kA kB []
      (fun _ => none) (fun _ => none) (.okWon (.error ()))).trace = false := by
  decide

/-- C2 (amended): in every `send_resp` and `send_resp_dyn` call with
the outbound queue open, the outbound frame is submitted FIRST, and the
two waiters `(RESP_KEY, seq)` then `(err_key, seq)` are registered
immediately afterwards, before the response race is awaited. -/
theorem send_resp_registers_after_submit {W R V : Type} (st : ClientState)
    (reqKey respKey : Key) (body : List Nat)
    (decodeResp : List Nat → Option R) (decodeErr : List Nat → Option W)
    (decodeDyn : List Nat → Option V) (race : RaceResult)
    (hopen : st.outClosed = false) :
    (send_resp st reqKey respKey body decodeResp decodeErr race).trace
      = [.alloc st.seq, .send ⟨⟨reqKey, st.seq⟩, body⟩,
         .register ⟨respKey, st.seq⟩, .register ⟨st.errKey, st.seq⟩]
    ∧ (send_resp_dyn st reqKey respKey body decodeDyn decodeErr race).trace
      = [.alloc st.seq, .send ⟨⟨reqKey, st.seq⟩, body⟩,
         .register ⟨respKey, st.seq⟩, .register ⟨st.errKey, st.seq⟩] := by
  constructor <;> simp [send_resp, send_resp_dyn, hopen]

/-- Witness for the amended C2 at a concrete call. -/
theorem send_resp_registers_after_submit_witness :
    (send_resp (W := Nat) (R := Nat) sampleState kA kB []
      (fun _ => none) (fun _ => none) (.okWon (.error ()))).trace
      = [.alloc 0, .send ⟨⟨kA, 0⟩, []⟩,
         .register ⟨kB, 0⟩, .register ⟨kErr, 0⟩] :=
  (send_resp_registers_after_submit sampleState kA kB []
    (fun _ => none) (fun _ => none) (fun _ => (none : Option Nat))
    (.okWon (.error ())) rfl).1

/-- C4 is false on the code: a winning payload decodable as neither the
response type nor WireErr yields `Postcard` (via `From<postcard::Error>`
and `?`), not `BadResponse` — `BadResponse` is never constructed. -/
theorem send_resp_counterexample_bad_response :
    (send_resp (W := Nat) (R := Nat) sampleState kA kB []
        (fun _ => none) (fun _ => none) (.okWon (.ok [0]))).result
      = .error .Postcard
    ∧ (send_resp (W := Nat) (R := Nat) sampleState kA kB []
        (fun _ => none) (fun _ => none) (.okWon (.ok [0]))).result
      ≠ .error .BadResponse := by
  refine ⟨rfl, ?_⟩
  intro h
  rw [show (send_resp (W := Nat) (R := Nat) sampleState kA kB []
      (fun _ => none) (fun _ => none) (.okWon (.ok [0]))).result
    = .error .Postcard from rfl] at h
  simp at h

/-- C4 (amended): when the winning payload decodes as neither a valid
response nor a valid WireErr, `send_resp` returns `HostErr::Postcard`
(the codec error of the winning arm), whichever waiter won. -/
theorem send_resp_undecodable_gives_postcard {W R : Type} (st : ClientState)
    (reqKey respKey : Key) (body : List Nat)
    (decodeResp : List Nat → Option R) (decodeErr : List Nat → Option W)
    (hopen : st.outClosed = false) :
    ∀ p, decodeResp p = none → decodeErr p = none →
      (send_resp st reqKey respKey body decodeResp decodeErr
        (.okWon (.ok p))).result = .error .Postcard
      ∧ (send_resp st reqKey respKey body decodeResp decodeErr
        (.errWon (.ok p))).result = .error .Postcard := by
  intro p h1 h2
  constructor <;> simp [send_resp, send_resp_select, hopen, h1, h2]

/-- Witness for the amended C4 at a concrete call. -/
theorem send_resp_undecodable_gives_postcard_witness :
    (send_resp (W := Nat) (R := Nat) sampleState kA kB []
        (fun _ => none) (fun _ => none) (.okWon (.ok [0]))).result
      = .error .Postcard
    ∧ (send_resp (W := Nat) (R := Nat) sampleState kA kB []
        (fun _ => none) (fun _ => none) (.errWon (.ok [0]))).result
      = .error .Postcard :=
  send_resp_undecodable_gives_postcard sampleState kA kB []
    (fun _ => none) (fun _ => none) rfl [0] rfl rfl

/-- C5: on the dynamic path, a success payload that fails to decode
under the response schema PANICS (`.expect("deser error")`), while an
error payload that fails to decode as WireErr is returned as
`HostErr::Postcard`. -/
theorem send_resp_dyn_decode_failure {W V : Type} (st : ClientState)
    (reqKey respKey : Key) (body : List Nat)
    (decodeDyn : List Nat → Option V) (decodeErr : List Nat → Option W)
    (hopen : st.outClosed = false) :
    (∀ p, decodeDyn p = none →
      (send_resp_dyn st reqKey respKey body decodeDyn decodeErr
        (.okWon (.ok p))).result = .panicked)
    ∧ (∀ p, decodeErr p = none →
      (send_resp_dyn st reqKey respKey body decodeDyn decodeErr
        (.errWon (.ok p))).result = .err .Postcard) := by
  refine ⟨fun p hd => ?_, fun p hd => ?_⟩ <;>
    simp [send_resp_dyn, send_resp_dyn_select, hopen, hd]

/-- Witness for C5 at a concrete call. -/
theorem send_resp_dyn_decode_failure_witness :
    (send_resp_dyn (W := Nat) (V := Nat) sampleState kA kB []
        (fun _ => none) (fun _ => none) (.okWon (.ok [0]))).result = .panicked
    ∧ (send_resp_dyn (W := Nat) (V := Nat) sampleState kA kB []
        (fun _ => none) (fun _ => none) (.errWon (.ok [0]))).result
      = .err .Postcard :=
  ⟨(send_resp_dyn_decode_failure sampleState kA kB []
      (fun _ => none) (fun _ => none) rfl).1 [0] rfl,
   (send_resp_dyn_decode_failure sampleState kA kB []
      (fun _ => none) (fun _ => none) rfl).2 [0] rfl⟩

/-- C6: each `send_resp`/`send_resp_dyn` call allocates the counter's
current value (first trace event) and advances the shared counter by 1
modulo `2 ^ 32`; hence after `k` calls the counter reads
`(s0 + k) % 2 ^ 32` (strict increase modulo wrap), and allocations
separated by fewer than `2 ^ 32` calls are distinct. -/
theorem seq_allocation_monotone {W R V : Type} :
    (∀ (st : ClientState) (reqKey respKey : Key) (body : List Nat)
        (decodeResp : List Nat → Option R) (decodeErr : List Nat → Option W)
        (decodeDyn : List Nat → Option V) (race : RaceResult),
      (send_resp st reqKey respKey body decodeResp decodeErr
          race).trace.head? = some (.alloc st.seq)
      ∧ (send_resp st reqKey respKey body decodeResp decodeErr
          race).state.seq = nextSeq st.seq
      ∧ (send_resp_dyn st reqKey respKey body decodeDyn decodeErr
          race).trace.head? = some (.alloc st.seq)
      ∧ (send_resp_dyn st reqKey respKey body decodeDyn decodeErr
          race).state.seq = nextSeq st.seq)
    ∧ (∀ s0 k, s0 < 2 ^ 32 → nextSeq^[k] s0 = (s0 + k) % 2 ^ 32)
    ∧ (∀ s0 i j, i < j → j - i < 2 ^ 32 →
        (s0 + i) % 2 ^ 32 ≠ (s0 + j) % 2 ^ 32) := by
  refine ⟨?_, ?_, ?_⟩
  · intro st reqKey respKey body decodeResp decodeErr decodeDyn race
    by_cases hc : st.outClosed <;>
      simp [send_resp, send_resp_dyn, hc]
  · intro s0 k hs0
    induction k with
    | zero => simpa using (Nat.mod_eq_of_lt hs0).symm
    | succ n ih =>
      rw [Function.iterate_succ_apply', ih, nextSeq, Nat.mod_add_mod,
        Nat.add_assoc]
  · intro s0 i j hij hlt h
    have h2 : Nat.ModEq (2 ^ 32) (s0 + i) (s0 + j) := h
    have h3 : Nat.ModEq (2 ^ 32) i j := Nat.ModEq.add_left_cancel' s0 h2
    have h4 : (2 ^ 32 : Nat) ∣ j - i :=
      (Nat.modEq_iff_dvd' (Nat.le_of_lt hij)).mp h3
    have h5 : (2 ^ 32 : Nat) ≤ j - i := Nat.le_of_dvd (by omega) h4
    omega

/-- Witness for C6: counter behaviour at concrete inputs. -/
theorem seq_allocation_monotone_witness :
    (send_resp (W := Nat) (R := Nat) sampleState kA kB []
        (fun _ => none) (fun _ => none)
        (.okWon (.error ()))).state.seq = 1
    ∧ nextSeq^[3] 0 = 3
    ∧ (0 + 1) % 2 ^ 32 ≠ (0 + 3) % 2 ^ 32 := by
  have h := seq_allocation_monotone (W := Nat) (R := Nat) (V := Nat)
  refine ⟨?_, ?_, h.2.2 0 1 3 (by decide) (by norm_num)⟩
  · exact ((h.1 sampleState kA kB [] (fun _ => none) (fun _ => none)
      (fun _ => none) (.okWon (.error ()))).2.1).trans (by decide)
  · exact (h.2.1 0 3 (by norm_num)).trans (by norm_num)

/-- C7: once the respective outbound side is closed, `send_resp` and
`send_resp_dyn` return `HostErr::Closed`, `publish` returns `IoClosed`,
and `subscribe` returns `IoClosed`. -/
theorem closed_sends_fail {W R V : Type} (st : ClientState)
    (reqKey respKey topicKey : Key) (body : List Nat) (s : Nat)
    (decodeResp : List Nat → Option R) (decodeErr : List Nat → Option W)
    (decodeDyn : List Nat → Option V) (race : RaceResult) :
    (st.outClosed = true →
      (send_resp st reqKey respKey body decodeResp decodeErr
          race).result = .error .Closed
      ∧ (send_resp_dyn st reqKey respKey body decodeDyn decodeErr
          race).result = .err .Closed
      ∧ (publish st topicKey s body).1 = .error .mk)
    ∧ (st.subClosed = true → (subscribe st topicKey).1 = .error .mk) := by
  constructor
  · intro hc
    refine ⟨?_, ?_, ?_⟩ <;> simp [send_resp, send_resp_dyn, publish, hc]
  · intro hs
    simp [subscribe, hs]

/-- Witness for C7 on a concrete fully-closed client. -/
theorem closed_sends_fail_witness :
    (send_resp (W := Nat) (R := Nat)
        ⟨[], 0, kErr, true, true, [], []⟩ kA kB []
        (fun _ => none) (fun _ => none)
        (.okWon (.error ()))).result = .error .Closed
    ∧ (publish ⟨[], 0, kErr, true, true, [], []⟩ kA 0 []).1 = .error .mk
    ∧ (subscribe ⟨[], 0, kErr, true, true, [], []⟩ kA).1 = .error .mk := by
  have h := closed_sends_fail (W := Nat) (R := Nat) (V := Nat)
    ⟨[], 0, kErr, true, true, [], []⟩ kA kB kA [] 0
    (fun _ => none) (fun _ => none) (fun _ => none) (.okWon (.error ()))
  exact ⟨(h.1 rfl).1, (h.1 rfl).2.2, h.2 rfl⟩

/-- C8: `Subscription::recv` returns the decode of the earliest queued
frame whose body decodes, silently discarding every earlier
undecodable frame, and returns `none` exactly when the channel is
closed with no decodable frame remaining. -/
theorem subscription_recv_first_decodable {M : Type}
    (decode : List Nat → Option M) (frames : List RpcFrame) :
    (Subscription.recv decode frames = none ↔
      ∀ f ∈ frames, decode f.body = none)
    ∧ (∀ m rest, Subscription.recv decode frames = some (m, rest) →
        ∃ dropped f, frames = dropped ++ f :: rest
          ∧ (∀ g ∈ dropped, decode g.body = none)
          ∧ decode f.body = some m) := by
  induction frames with
  | nil => simp [Subscription.recv]
  | cons f rest ih =>
    cases hd : decode f.body with
    | some m =>
      constructor
      · simp only [Subscription.recv, hd]
        constructor
        · intro h
          exact absurd h (by simp)
        · intro h
          have := h f (by simp)
          rw [hd] at this
          exact absurd this (by simp)
      · intro m' rest' h
        simp only [Subscription.recv, hd, Option.some.injEq, Prod.mk.injEq]
          at h
        exact ⟨[], f, by simp [h.2], by simp, by rw [hd, h.1]⟩
    | none =>
      constructor
      · simp only [Subscription.recv, hd]
        rw [ih.1]
        constructor
        · intro h g hg
          rcases List.mem_cons.mp hg with hg | hg
          · rw [hg, hd]
          · exact h g hg
        · intro h g hg
          exact h g (List.mem_cons_of_mem f hg)
      · intro m' rest' h
        simp only [Subscription.recv, hd] at h
        obtain ⟨dropped, g, hsplit, hnone, hdec⟩ := ih.2 m' rest' h
        refine ⟨f :: dropped, g, by simp [hsplit], ?_, hdec⟩
        intro g' hg'
        rcases List.mem_cons.mp hg' with hg' | hg'
        · rw [hg', hd]
        · exact hnone g' hg'

/-- Witness for C8: a queue whose first frame is undecodable and whose
second decodes; `recv` skips the first and yields the second. -/
theorem subscription_recv_first_decodable_witness :
    Subscription.recv (fun p => if p = [5] then some 50 else none)
      [⟨⟨kA, 0⟩, [4]⟩, ⟨⟨kA, 1⟩, [5]⟩, ⟨⟨kA, 2⟩, [6]⟩]
      = some (50, [⟨⟨kA, 2⟩, [6]⟩])
    ∧ ∃ dropped f,
        [(⟨⟨kA, 0⟩, [4]⟩ : RpcFrame), ⟨⟨kA, 1⟩, [5]⟩, ⟨⟨kA, 2⟩, [6]⟩]
          = dropped ++ f :: [⟨⟨kA, 2⟩, [6]⟩]
        ∧ (∀ g ∈ dropped,
            (fun p => if p = [5] then some (50 : Nat) else none) g.body
              = none)
        ∧ (fun p => if p = [5] then some (50 : Nat) else none) f.body
            = some 50 := by
  refine ⟨by decide, ?_⟩
  exact (subscription_recv_first_decodable
      (fun p => if p = [5] then some (50 : Nat) else none)
      [⟨⟨kA, 0⟩, [4]⟩, ⟨⟨kA, 1⟩, [5]⟩, ⟨⟨kA, 2⟩, [6]⟩]).2 50
    [⟨⟨kA, 2⟩, [6]⟩] (by decide)

/-- C9: `publish` submits exactly the frame with header
`(T::TOPIC_KEY, seq_no)` — the caller-supplied sequence number — and
the serialized body; it registers no waiter and leaves the pending set
and the shared sequence counter untouched. -/
theorem publish_frame_effect (st : ClientState) (topicKey : Key) (s : Nat)
    (body : List Nat) (hopen : st.outClosed = false) :
    (publish st topicKey s body).1 = .ok ()
    ∧ (publish st topicKey s body).2.1.outQueue
        = st.outQueue ++ [⟨⟨topicKey, s⟩, body⟩]
    ∧ (publish st topicKey s body).2.2.filter Event.isRegister = []
    ∧ (publish st topicKey s body).2.1.registered = st.registered
    ∧ (publish st topicKey s body).2.1.seq = st.seq := by
  refine ⟨?_, ?_, ?_, ?_, ?_⟩ <;> simp [publish, hopen, Event.isRegister]

/-- Witness for C9 at a concrete publish. -/
theorem publish_frame_effect_witness :
    (publish sampleState kA 7 [3]).1 = .ok ()
    ∧ (publish sampleState kA 7 [3]).2.1.outQueue = [⟨⟨kA, 7⟩, [3]⟩]
    ∧ (publish sampleState kA 7 [3]).2.1.seq = 0 := by
  have h := publish_frame_effect sampleState kA 7 [3] rfl
  exact ⟨h.1, h.2.1.trans (by decide), (h.2.2.2.2).trans (by decide)⟩
